import Mathlib

/-!
Shallow embedding of the authentication/OTP core of the Metamuse backend
(`auth.controller` / `auth.service` / `auth.schema`): the blacklist-backed
token rotation flow (`AuthService`), the one-time-passcode lifecycle
(`OTPService`), and the controller-level flows (`refresh`, `logout`,
`verifyAccount`, `resetPassword`).

Modelling conventions, fixed once for the whole file:

* Machine state (the MongoDB collections) is passed explicitly: the OTP
  collection is a `List OTPRecord`, the two blacklist collections form an
  `AuthState`, the user collection is a `List User`.  Every service method
  returns its result together with the post-state, so frame properties are
  expressible.  Failures (`throw` in the source) are `Except` errors.
* Time is a `Nat` of epoch seconds, supplied explicitly where the source
  reads the clock (`Date.now()`).
* The persistent store is modelled as storing exactly the fields the
  service writes (MongoDB itself is schemaless; this is the reading most
  favourable to the code).  Consequently `OTPRecord` carries, as `Option`
  fields, both the schema-declared field `hashedOTP` and the keys the
  service actually writes that are absent from the schema in
  `auth.schema.ts` (`otp`, `multiUse`, `isVerified`): the source's
  `createOTP` stores the hash under the key `otp`, never under
  `hashedOTP`, and the schema class `OTP` declares neither `multiUse` nor
  `isVerified`.
* MongoDB's TTL index on `expiresAt` (`expireAfterSeconds: 0`) deletes
  expired documents asynchronously (the background reaper runs
  periodically); until the reap an expired document remains visible to
  queries, so the store model keeps records until they are explicitly
  removed, and the service functions receive whatever is in the store.
* The source queries the OTP collection with `findOne({ otpId, otpType })`
  although the documents carry `_id`, not `otpId`; the embedding gives the
  code the favourable reading that this resolves the record whose id and
  type match.
* JS truthiness tests on possibly-absent values (`if (otp && ...)`) are
  embedded by explicit `Option` matches plus non-empty-string tests.
-/

namespace Metamuse

/-- Error taxonomy of `@app/utils` (`ValidationError`, `NotFoundError`,
`UnauthorizedError`, `ForbiddenError`, `IntegrityError`), each carrying its
message. -/
inductive AuthError where
  | validation (msg : String)
  | notFound (msg : String)
  | unauthorized (msg : String)
  | forbidden (msg : String)
  | integrity (msg : String)
deriving DecidableEq, Repr

/-- NestJS HTTP exceptions the controller translates domain errors into. -/
inductive HttpException where
  | badRequest (msg : String)
  | unauthorized (msg : String)
  | forbidden (msg : String)
  | conflict (msg : String)
  | notFound (msg : String)
deriving DecidableEq, Repr

/-- A string value as it sits in the store: either the output of the
password hasher (which embeds its salt) or a plain string that is not a
hash output. -/
inductive StrVal where
  | hashed (plaintext : String) (salt : Nat)
  | plain (s : String)
deriving DecidableEq, Repr

/-- Modelled from the spec: `encryptPassword` of `@app/utils/utils.encrypt`
is not under `src/`; §4.1 describes it as a one-way transform with a
per-call random salt embedded in the output.  The salt is passed
explicitly. -/
def encryptPassword (plaintext : String) (salt : Nat) : StrVal :=
  StrVal.hashed plaintext salt

/-- Modelled from the spec: `verifyPassword` of `@app/utils/utils.encrypt`
is not under `src/`; §4.1: `verify(plaintext, hash)` compares the
plaintext against a stored hash and returns `false` (never throws) on
malformed input — in particular a stored value that is not a hash output
verifies against nothing. -/
def verifyPassword (plaintext : String) : StrVal → Bool
  | StrVal.hashed q _ => plaintext == q
  | StrVal.plain _ => false

/-- `verifyPassword` applied to a possibly-absent stored value
(JS `verifyPassword(x, undefined)` returns `false`). -/
def verifyPasswordU (plaintext : String) : Option StrVal → Bool
  | none => false
  | some h => verifyPassword plaintext h

/-- JS truthiness of a possibly-absent string (undefined and `""` are
falsy). -/
def jsTruthyStr : Option String → Bool
  | none => false
  | some s => !(s == "")

/-- JS truthiness of a possibly-absent boolean (undefined is falsy). -/
def jsTruthyBool : Option Bool → Bool
  | none => false
  | some b => b

/-- `OTP_EXPIRATION` configuration constant (seconds).  The exact value is
externally supplied configuration; no claim in this development depends on
it, 600 s matches the spec's 10-minute example. -/
def OTP_EXPIRATION : Nat := 600

/-- An OTP document as stored.  Schema fields (`auth.schema.ts`):
`hashedOTP`, `userId`, `expiresAt`, `isUsed`, `otpType`,
`verificationToken`.  The service additionally writes the non-schema keys
`otp` (in `createOTP`, holding the hash), `multiUse` (in `createOTP`) and
`isVerified` (in `verifyOTP`); those are kept as `Option` fields per the
store model above.  `id` is the Mongo `_id`. -/
structure OTPRecord where
  id : Nat
  userId : Nat
  otpType : String
  hashedOTP : Option StrVal
  otp : Option StrVal
  verificationToken : Option StrVal
  isUsed : Bool
  isVerified : Option Bool
  multiUse : Option Bool
  expiresAt : Nat
deriving DecidableEq, Repr

/-- The `findOne({ otpId, otpType })` lookup: first record whose id and
type match (favourable reading, see header). -/
def findOne (otpId : Nat) (otpType : String) : List OTPRecord → Option OTPRecord
  | [] => none
  | r :: rs =>
    if r.id = otpId ∧ r.otpType = otpType then some r else findOne otpId otpType rs

/-- `document.save()`: write the document back by `_id` (replaces the
first record with the same id). -/
def saveRecord (r : OTPRecord) : List OTPRecord → List OTPRecord
  | [] => []
  | x :: xs => if x.id = r.id then r :: xs else x :: saveRecord r xs

/-- `OTPService.createOTP(userId, otpType, multiUse)`.  The randomly
generated six-digit `otp` code and `verificationToken`, the hashing salt,
the fresh document id and the clock are passed explicitly.  As in the
source: the OTP code is hashed and stored under the key `otp` (the schema
field `hashedOTP` is never populated), the verification token is stored
as given (plaintext), `isUsed` defaults to `false` and `expiresAt` to
`now + OTP_EXPIRATION` per the schema defaults. -/
def createOTP (userId : Nat) (otpType : String) (multiUse : Bool)
    (code token : String) (salt freshId now : Nat)
    (store : List OTPRecord) : OTPRecord × List OTPRecord :=
  let record : OTPRecord :=
    { id := freshId
      userId := userId
      otpType := otpType
      hashedOTP := none
      otp := some (encryptPassword code salt)
      verificationToken := some (StrVal.plain token)
      isUsed := false
      isVerified := none
      multiUse := some multiUse
      expiresAt := now + OTP_EXPIRATION }
  (record, store ++ [record])

/-- `OTPService.verifyOTP({ otpId, otpType, otp })`: look the record up,
reject if missing or `isUsed`; if the supplied code is truthy and matches
`otpRecord.hashedOTP` under `verifyPassword`, set `isVerified` and save;
otherwise reject.  No `expiresAt` test appears anywhere in the source
method. -/
def verifyOTP (otpId : Nat) (otpType : String) (otp : Option String)
    (store : List OTPRecord) : Except AuthError Unit × List OTPRecord :=
  match findOne otpId otpType store with
  | none => (Except.error (AuthError.unauthorized "Otp not found. It must have expired"), store)
  | some r =>
    if r.isUsed then
      (Except.error (AuthError.unauthorized "OTP already used"), store)
    else
      match otp with
      | some c =>
        if c ≠ "" ∧ verifyPasswordU c r.hashedOTP = true then
          (Except.ok (), saveRecord { r with isVerified := some true } store)
        else
          (Except.error (AuthError.unauthorized "Invalid OTP"), store)
      | none => (Except.error (AuthError.unauthorized "Invalid OTP"), store)

/-- `OTPService.useOTP({ otpId, otpType, verificationToken })`: look the
record up, reject if missing or `isUsed`; if the supplied verification
token is truthy and matches the stored `verificationToken` under
`verifyPassword`, set `isUsed` unless `multiUse` is truthy, save, and
return the record.  No `expiresAt` test appears in the source method. -/
def useOTP (otpId : Nat) (otpType : String) (vt : Option String)
    (store : List OTPRecord) : Except AuthError OTPRecord × List OTPRecord :=
  match findOne otpId otpType store with
  | none => (Except.error (AuthError.unauthorized "Otp not found. It must have expired"), store)
  | some r =>
    if r.isUsed then
      (Except.error (AuthError.unauthorized "OTP already used"), store)
    else
      match vt with
      | some t =>
        if t ≠ "" ∧ verifyPasswordU t r.verificationToken = true then
          let upd := if jsTruthyBool r.multiUse then r else { r with isUsed := true }
          (Except.ok upd, saveRecord upd store)
        else
          (Except.error (AuthError.unauthorized "OTP verification failed"), store)
      | none => (Except.error (AuthError.unauthorized "OTP verification failed"), store)

/-- JWT config constants of `@app/utils` (seconds): access tokens live one
hour, refresh tokens seven days, matching the source's
`issuedAt + 60 * 60` and `issuedAt + 60 * 60 * 24 * 7`. -/
def JWT_ACCESS_TOKEN_EXPIRATION : Nat := 3600

/-- Refresh-token lifetime in seconds (7 days). -/
def JWT_REFRESH_TOKEN_EXPIRATION : Nat := 604800

/-- Decoded JWT claims as the service builds them in `getTokens`:
`sub` (user id, hex-decoded here to a `Nat`; `none` stands for an absent
or undecodable subject), `type`, `lastAuthChange`, `iat`, and the `exp`
baked in by the sign options. -/
structure Payload where
  sub : Option Nat
  type : String
  lastAuthChange : Nat
  iat : Nat
  exp : Nat
deriving DecidableEq, Repr

/-- A token string: either a payload signed with `JWT_SIGNING_KEY` under
`JWT_ALGORITHM` (the only signing path in the source), or any other
string (garbage, wrong key, wrong algorithm), which signature
verification rejects. -/
inductive TokenStr where
  | signed (p : Payload)
  | raw (s : String)
deriving DecidableEq, Repr

/-- `jwtService.verify(old, { secret, algorithms, maxAge:
JWT_REFRESH_TOKEN_EXPIRATION, ignoreExpiration: false })` as called in
`refreshTokens`: reject unsigned strings, expired tokens (`exp ≤ now`),
and tokens older than `maxAge`; otherwise return the claims. -/
def jwtVerifyRefresh (t : TokenStr) (now : Nat) : Option Payload :=
  match t with
  | TokenStr.raw _ => none
  | TokenStr.signed p =>
    if p.exp ≤ now then none
    else if p.iat + JWT_REFRESH_TOKEN_EXPIRATION < now then none
    else some p

/-- A user document as the auth flows read it (`_id`, `email`,
`password` hash, `isVerified`, `lastAuthChange`).  The controller reads
and writes `user.isVerified`; the store model keeps it (see header). -/
structure User where
  id : Nat
  email : String
  password : StrVal
  isVerified : Bool
  lastAuthChange : Nat
deriving DecidableEq, Repr

/-- `usersService.getUser(id)`: lookup by `_id`. -/
def getUser (uid : Nat) (users : List User) : Option User :=
  users.find? (fun u => u.id == uid)

/-- Modelled from the spec: the `UsersService.getUser(null, { email })`
lookup used by `verifyAccount` / `resetPassword` lives in
`src/users/users.service`, which is not under `src/`; §6 specifies a
`lookupUserByEmail` that raises a not-found condition when absent
(embedded as `none`). -/
def getUserByEmail (email : String) (users : List User) : Option User :=
  users.find? (fun u => u.email == email)

/-- `user.save()` / `findByIdAndUpdate`: write the user back by id. -/
def saveUser (u : User) : List User → List User
  | [] => []
  | x :: xs => if x.id = u.id then u :: xs else x :: saveUser u xs

/-- The two blacklist collections (`BlacklistAccess`,
`BlacklistRefresh`), each a unique-indexed set of token strings. -/
structure AuthState where
  blacklistAccess : List TokenStr
  blacklistRefresh : List TokenStr
deriving DecidableEq, Repr

/-- `AuthService.blacklistToken(token, model)`: insert into the selected
collection; the unique index makes a duplicate insert raise the Mongo
11000 duplicate-key error, which the method maps to
`IntegrityError('Token already blacklisted')`; an unknown model raises
`ValidationError('Invalid model')`. -/
def blacklistToken (token : TokenStr) (model : String) (st : AuthState) :
    Except AuthError AuthState :=
  if model = "access" then
    if token ∈ st.blacklistAccess then
      Except.error (AuthError.integrity "Token already blacklisted")
    else
      Except.ok { st with blacklistAccess := st.blacklistAccess ++ [token] }
  else if model = "refresh" then
    if token ∈ st.blacklistRefresh then
      Except.error (AuthError.integrity "Token already blacklisted")
    else
      Except.ok { st with blacklistRefresh := st.blacklistRefresh ++ [token] }
  else
    Except.error (AuthError.validation "Invalid model")

/-- `AuthService.isTokenBlacklisted(token, model)`: existence check in the
selected collection; an unknown model leaves `blacklist` null and returns
`false`. -/
def isTokenBlacklisted (token : TokenStr) (model : String) (st : AuthState) : Bool :=
  if model = "access" then decide (token ∈ st.blacklistAccess)
  else if model = "refresh" then decide (token ∈ st.blacklistRefresh)
  else false

/-- The record `getTokens` returns: both signed tokens, the user id, and
the numeric issued-at/expiry values it formats into ISO strings. -/
structure AuthTokenResponse where
  accessToken : TokenStr
  refreshToken : TokenStr
  userId : Nat
  access_iat : Nat
  refresh_iat : Nat
  access_exp : Nat
  refresh_exp : Nat
deriving DecidableEq, Repr

/-- `AuthService.getTokens(user)`: build the shared claims
`{ sub, lastAuthChange, iat }` at the current time and sign an `access`
and a `refresh` token with their respective expiries. -/
def getTokens (u : User) (now : Nat) : AuthTokenResponse :=
  { accessToken := TokenStr.signed
      { sub := some u.id, type := "access", lastAuthChange := u.lastAuthChange,
        iat := now, exp := now + JWT_ACCESS_TOKEN_EXPIRATION }
    refreshToken := TokenStr.signed
      { sub := some u.id, type := "refresh", lastAuthChange := u.lastAuthChange,
        iat := now, exp := now + JWT_REFRESH_TOKEN_EXPIRATION }
    userId := u.id
    access_iat := now
    refresh_iat := now
    access_exp := now + JWT_ACCESS_TOKEN_EXPIRATION
    refresh_exp := now + JWT_REFRESH_TOKEN_EXPIRATION }

/-- The distinct failure sites of the `try` body of
`AuthService.refreshTokens`, in source order: blacklist hit
(`ForbiddenError('Token blacklisted')`), `jwtService.verify` throw, wrong
`type` claim (`ForbiddenError('Invalid token type')`),
`ObjectId.createFromHexString` throw on a missing subject, user not found
(`ForbiddenError('User not found')`), and a failing final blacklist
write. -/
inductive RefreshFail where
  | blacklisted
  | badJwt
  | badType
  | badSub
  | noUser
  | writeConflict
deriving DecidableEq, Repr

/-- The `try` body of `AuthService.refreshTokens(oldRefreshToken)`:
blacklist check, signature/expiry verification, type check, subject
resolution, issue of the new pair, blacklist write of the consumed
token. -/
def refreshTokensInner (old : TokenStr) (st : AuthState) (users : List User)
    (now : Nat) : Except RefreshFail (AuthTokenResponse × AuthState) :=
  if isTokenBlacklisted old "refresh" st then
    Except.error RefreshFail.blacklisted
  else
    match jwtVerifyRefresh old now with
    | none => Except.error RefreshFail.badJwt
    | some p =>
      if p.type ≠ "refresh" then Except.error RefreshFail.badType
      else
        match p.sub with
        | none => Except.error RefreshFail.badSub
        | some uid =>
          match getUser uid users with
          | none => Except.error RefreshFail.noUser
          | some u =>
            match blacklistToken old "refresh" st with
            | Except.error _ => Except.error RefreshFail.writeConflict
            | Except.ok st' => Except.ok (getTokens u now, st')

/-- `AuthService.refreshTokens`: the `catch` clause around the whole body
rethrows every failure as `UnauthorizedError('Invalid token')`.  Returns
the result together with the post-state (unchanged on failure: the only
write is the final blacklist insert, which either lands on the success
path or is itself the failure). -/
def refreshTokens (old : TokenStr) (st : AuthState) (users : List User)
    (now : Nat) : Except AuthError AuthTokenResponse × AuthState :=
  match refreshTokensInner old st users now with
  | Except.ok (resp, st') => (Except.ok resp, st')
  | Except.error _ => (Except.error (AuthError.unauthorized "Invalid token"), st)

/-- The `catch` chain of `AuthController.refresh`: `ForbiddenError` →
403, `UnauthorizedError` → 401, `IntegrityError` → 409, anything else →
400. -/
def refreshHttp : AuthError → HttpException
  | AuthError.forbidden m => HttpException.forbidden m
  | AuthError.unauthorized m => HttpException.unauthorized m
  | AuthError.integrity m => HttpException.conflict m
  | AuthError.validation m => HttpException.badRequest m
  | AuthError.notFound m => HttpException.badRequest m

/-- `AuthController.refresh(body)`: delegate to
`authService.refreshTokens` and translate domain errors to HTTP
exceptions. -/
def controllerRefresh (tok : TokenStr) (st : AuthState) (users : List User)
    (now : Nat) : Except HttpException AuthTokenResponse × AuthState :=
  match refreshTokens tok st users now with
  | (Except.ok resp, st') => (Except.ok resp, st')
  | (Except.error e, st') => (Except.error (refreshHttp e), st')

/-- The `catch` chain of `AuthController.logout`: `ValidationError` →
400, `IntegrityError` → 409, anything else → 400. -/
def logoutHttp : AuthError → HttpException
  | AuthError.validation m => HttpException.badRequest m
  | AuthError.integrity m => HttpException.conflict m
  | AuthError.unauthorized m => HttpException.badRequest m
  | AuthError.forbidden m => HttpException.badRequest m
  | AuthError.notFound m => HttpException.badRequest m

/-- `AuthController.logout(req, body)`: blacklist the presented access
token first, then the refresh token from the body; the first failure
aborts the sequence (the second write never runs). -/
def logout (reqToken bodyToken : TokenStr) (st : AuthState) :
    Except HttpException String × AuthState :=
  match blacklistToken reqToken "access" st with
  | Except.error e => (Except.error (logoutHttp e), st)
  | Except.ok st1 =>
    match blacklistToken bodyToken "refresh" st1 with
    | Except.error e => (Except.error (logoutHttp e), st1)
    | Except.ok st2 => (Except.ok "Successfully logged out", st2)

/-- Message of the cross-user guard in `verifyAccount` / `resetPassword`. -/
def crossUserMsg : String := "You\x27re not permitted to carry this out. Request a new otp"

/-- Tail of `AuthController.verifyAccount` after the guard: reject when
already verified, else flip `isVerified` and save. -/
def verifyAccountBody (user : User) (users : List User) :
    Except HttpException String × List User :=
  if user.isVerified then
    (Except.error (HttpException.unauthorized "Account already verified"), users)
  else
    (Except.ok "Account verified successfully..Proceed to log in",
      saveUser { user with isVerified := true } users)

/-- `AuthController.verifyAccount(req, body)`: resolve the target user by
the email in the body; if the guard-resolved OTP record is present and its
`userId` differs from the target's id, throw
`UnauthorizedError` before touching the account.  (In the source the
comparison is JS `!=` on two `ObjectId`s; ids are embedded as `Nat`, on
which value inequality agrees with the source whenever the ids differ.)
An absent user surfaces through the generic `catch` as 400. -/
def verifyAccount (otpRecord : Option OTPRecord) (email : String)
    (users : List User) : Except HttpException String × List User :=
  match getUserByEmail email users with
  | none => (Except.error (HttpException.badRequest "User not found"), users)
  | some user =>
    match otpRecord with
    | some r =>
      if r.userId ≠ user.id then
        (Except.error (HttpException.unauthorized crossUserMsg), users)
      else verifyAccountBody user users
    | none => verifyAccountBody user users

/-- Tail of `AuthController.resetPassword` after the guard:
`usersService.updateUser(user._id, { password })`, which per the users
service hashes the new password and advances `lastAuthChange`. -/
def resetPasswordBody (user : User) (pwd : String) (salt now : Nat)
    (users : List User) : Except HttpException String × List User :=
  (Except.ok "Password reset successfully",
    saveUser { user with password := encryptPassword pwd salt, lastAuthChange := now } users)

/-- `AuthController.resetPassword(req, body)`: same shape as
`verifyAccount` — resolve the user by email, apply the cross-user guard,
then update the credential.  An absent user surfaces as 404 (this catch
chain has a `NotFoundError` branch). -/
def resetPassword (otpRecord : Option OTPRecord) (email pwd : String)
    (salt now : Nat) (users : List User) : Except HttpException String × List User :=
  match getUserByEmail email users with
  | none => (Except.error (HttpException.notFound "User not found"), users)
  | some user =>
    match otpRecord with
    | some r =>
      if r.userId ≠ user.id then
        (Except.error (HttpException.unauthorized crossUserMsg), users)
      else resetPasswordBody user pwd salt now users
    | none => resetPasswordBody user pwd salt now users

/-- One step of the OTP store: the three `OTPService` operations, with all
externally-supplied data (generated code/token, salt, fresh id, clock) as
arguments. -/
inductive OTPOp where
  | createOp (userId : Nat) (otpType : String) (multiUse : Bool)
      (code token : String) (salt freshId now : Nat)
  | verifyOp (otpId : Nat) (otpType : String) (otp : Option String)
  | useOp (otpId : Nat) (otpType : String) (vt : Option String)
deriving DecidableEq, Repr

/-- Effect of one `OTPService` operation on the OTP collection. -/
def applyOTPOp : OTPOp → List OTPRecord → List OTPRecord
  | OTPOp.createOp u ty m c t s f n, store => (createOTP u ty m c t s f n store).2
  | OTPOp.verifyOp i ty o, store => (verifyOTP i ty o store).2
  | OTPOp.useOp i ty v, store => (useOTP i ty v store).2

/-- Error kind extractor for the service-level refresh result. -/
def refreshErrOf : Except AuthError AuthTokenResponse × AuthState → Option AuthError
  | (Except.ok _, _) => none
  | (Except.error e, _) => some e

/-- Error kind extractor for the controller-level refresh result. -/
def refreshHttpErrOf : Except HttpException AuthTokenResponse × AuthState → Option HttpException
  | (Except.ok _, _) => none
  | (Except.error e, _) => some e

/-- Whether a controller-level result failed with a `ForbiddenException`. -/
def failsForbidden : Except HttpException AuthTokenResponse × AuthState → Bool
  | (Except.error (HttpException.forbidden _), _) => true
  | _ => false

/-- Revocation-class error kinds per the spec's §7 taxonomy:
`ForbiddenError` ("explicitly revoked") and `IntegrityError`
("state conflict"); `UnauthorizedError` is the credential-proof class. -/
def isRevocationClass : AuthError → Bool
  | AuthError.forbidden _ => true
  | AuthError.integrity _ => true
  | _ => false

/-- Whether a service-level refresh result failed with a revocation-class
error. -/
def failsRevocationClass : Except AuthError AuthTokenResponse × AuthState → Bool
  | (Except.error e, _) => isRevocationClass e
  | (Except.ok _, _) => false

/-! ### Store lemmas -/

/-- A record returned by `findOne` is in the store and matches the queried
id and type. -/
theorem findOne_mem {i : Nat} {ty : String} {l : List OTPRecord} {r : OTPRecord}
    (h : findOne i ty l = some r) : r ∈ l ∧ r.id = i ∧ r.otpType = ty := by
  induction l with
  | nil => simp [findOne] at h
  | cons x xs ih =>
    by_cases hx : x.id = i ∧ x.otpType = ty
    · rw [findOne, if_pos hx] at h
      obtain rfl : x = r := by injection h
      exact ⟨List.mem_cons_self _ _, hx⟩
    · rw [findOne, if_neg hx] at h
      obtain ⟨h1, h2, h3⟩ := ih h
      exact ⟨List.mem_cons_of_mem _ h1, h2, h3⟩

/-- Membership after a `saveRecord` write: the new document or an old
one. -/
theorem mem_saveRecord {q r' : OTPRecord} {l : List OTPRecord}
    (h : r' ∈ saveRecord q l) : r' = q ∨ r' ∈ l := by
  induction l with
  | nil => simp [saveRecord] at h
  | cons x xs ih =>
    rw [saveRecord] at h
    by_cases hx : x.id = q.id
    · rw [if_pos hx] at h
      rcases List.mem_cons.mp h with h | h
      · exact Or.inl h
      · exact Or.inr (List.mem_cons_of_mem _ h)
    · rw [if_neg hx] at h
      rcases List.mem_cons.mp h with h | h
      · exact Or.inr (h ▸ List.mem_cons_self _ _)
      · rcases ih h with h | h
        · exact Or.inl h
        · exact Or.inr (List.mem_cons_of_mem _ h)

/-- Under Mongo's `_id` uniqueness, two store members with the same id are
the same document. -/
theorem eq_of_mem_of_id_eq {l : List OTPRecord} {r r' : OTPRecord}
    (hnd : (l.map OTPRecord.id).Nodup)
    (hr : r ∈ l) (hr' : r' ∈ l) (hid : r'.id = r.id) : r' = r :=
  List.inj_on_of_nodup_map hnd hr' hr hid

/-- After writing back a record with the same id and type as the one
`findOne` located, `findOne` returns the written record. -/
theorem findOne_saveRecord {i : Nat} {ty : String} {l : List OTPRecord}
    {r q : OTPRecord}
    (hnd : (l.map OTPRecord.id).Nodup)
    (hf : findOne i ty l = some r)
    (hqid : q.id = r.id) (hqty : q.otpType = ty) :
    findOne i ty (saveRecord q l) = some q := by
  induction l with
  | nil => simp [findOne] at hf
  | cons x xs ih =>
    rw [List.map_cons, List.nodup_cons] at hnd
    by_cases hx : x.id = i ∧ x.otpType = ty
    · rw [findOne, if_pos hx] at hf
      obtain rfl : x = r := by injection hf
      rw [saveRecord, if_pos (by rw [hqid, hx.1]), findOne,
        if_pos ⟨by rw [hqid, hx.1], hqty⟩]
    · rw [findOne, if_neg hx] at hf
      obtain ⟨hmem, hid, _⟩ := findOne_mem hf
      have hxq : ¬ x.id = q.id := by
        intro hcontra
        exact hnd.1 (by
          refine List.mem_map.mpr ⟨r, hmem, ?_⟩
          rw [hid, hcontra, hqid, hid])
      rw [saveRecord, if_neg hxq, findOne, if_neg hx]
      exact ih hnd.2 hf

/-! ### Claim theorems -/

/-- Fixture for the expired-record evaluation: a schema-conformant OTP
document whose `expiresAt` (50) lies in the past of the evaluation time
(100), unused, with a properly hashed OTP code and a properly hashed
verification token. -/
def c1Record : OTPRecord :=
  { id := 1, userId := 1, otpType := "EMAIL",
    hashedOTP := some (StrVal.hashed "123456" 1), otp := none,
    verificationToken := some (StrVal.hashed "654321" 2),
    isUsed := false, isVerified := none, multiUse := none, expiresAt := 50 }

/-- C1: refuting evaluation for the code-bug verdict.  The claim says an
OTP record whose `expiresAt` has passed never validates; but neither
`verifyOTP` nor `useOTP` inspects `expiresAt` (their definitions above do
not mention it, mirroring the source), so on an expired record still
present in the store (MongoDB's TTL reaper is asynchronous) both calls
with matching credentials succeed at time 100. -/
theorem expired_otp_validates :
    c1Record.expiresAt < 100 ∧
    (verifyOTP 1 "EMAIL" (some "123456") [c1Record]).1 = Except.ok () ∧
    (useOTP 1 "EMAIL" (some "654321") [c1Record]).1
      = Except.ok { c1Record with isUsed := true } :=
  ⟨by decide, rfl, rfl⟩

/-- C2: evaluation at the failing input for the code-bug verdict.  The
claim says `useOTP` before expiry with the verification token generated
at creation succeeds; but `createOTP` stores the verification token as
given (plaintext) while `useOTP` checks it with `verifyPassword`, which
rejects any stored value that is not a hash output — so the round trip
fails `Unauthorized` for every created record; here evaluated at a
record created with `multiUse = false` and token `"222222"`. -/
theorem created_otp_use_roundtrip_fails :
    ((createOTP 1 "EMAIL" false "111111" "222222" 3 7 0 []).1).verificationToken
      = some (StrVal.plain "222222") ∧
    ((createOTP 1 "EMAIL" false "111111" "222222" 3 7 0 []).1).isUsed = false ∧
    (useOTP 7 "EMAIL" (some "222222") (createOTP 1 "EMAIL" false "111111" "222222" 3 7 0 []).2).1
      = Except.error (AuthError.unauthorized "OTP verification failed") :=
  ⟨rfl, rfl, rfl⟩

/-- C6: evaluation at the failing input for the code-bug verdict.  The
claim says a record created with `multiUse = true` can be consumed any
number of times with the correct verification token; but the very first
`useOTP` with the token generated at creation already fails
`Unauthorized` (the token is stored plaintext and checked as a hash), so
it succeeds zero times. -/
theorem multiuse_otp_use_roundtrip_fails :
    ((createOTP 2 "EMAIL" true "333333" "444444" 5 9 0 []).1).multiUse = some true ∧
    (useOTP 9 "EMAIL" (some "444444") (createOTP 2 "EMAIL" true "333333" "444444" 5 9 0 []).2).1
      = Except.error (AuthError.unauthorized "OTP verification failed") :=
  ⟨rfl, rfl⟩

/-- C8: a successful `verifyOTP` only sets `isVerified` — the saved
document is literally the located record with `isVerified := some true`
and every other field (in particular `isUsed`) untouched — and a second
`verifyOTP` with the same correct code on the updated store succeeds
again.  The `_id`-uniqueness hypothesis reflects Mongo's unique `_id`
index. -/
theorem verifyOTP_frame_second_succeeds (store : List OTPRecord) (i : Nat)
    (ty c : String) (r : OTPRecord)
    (hnd : (store.map OTPRecord.id).Nodup)
    (hf : findOne i ty store = some r)
    (hused : r.isUsed = false)
    (hc : c ≠ "")
    (hv : verifyPasswordU c r.hashedOTP = true) :
    (verifyOTP i ty (some c) store).1 = Except.ok () ∧
    (verifyOTP i ty (some c) store).2
      = saveRecord { r with isVerified := some true } store ∧
    ({ r with isVerified := some true } : OTPRecord).isUsed = r.isUsed ∧
    (verifyOTP i ty (some c) (verifyOTP i ty (some c) store).2).1 = Except.ok () := by
  have hty : ({ r with isVerified := some true } : OTPRecord).otpType = ty :=
    (findOne_mem hf).2.2
  have hf2 : findOne i ty (saveRecord { r with isVerified := some true } store)
      = some { r with isVerified := some true } :=
    findOne_saveRecord hnd hf rfl hty
  simp only [hused] at hf2
  refine ⟨?_, ?_, rfl, ?_⟩ <;>
    simp [verifyOTP, hf, hused, hc, hv, hf2]

/-- Fixture for the C8 witness: an unused, unexpired record with a
properly hashed code. -/
def c8Record : OTPRecord :=
  { id := 4, userId := 1, otpType := "EMAIL",
    hashedOTP := some (StrVal.hashed "999999" 4), otp := none,
    verificationToken := none, isUsed := false, isVerified := none,
    multiUse := none, expiresAt := 600 }

/-- C8 witness: the frame theorem instantiated at a concrete store. -/
theorem verifyOTP_frame_second_succeeds_witness :
    (verifyOTP 4 "EMAIL" (some "999999") [c8Record]).1 = Except.ok () ∧
    (verifyOTP 4 "EMAIL" (some "999999") [c8Record]).2
      = saveRecord { c8Record with isVerified := some true } [c8Record] ∧
    ({ c8Record with isVerified := some true } : OTPRecord).isUsed = c8Record.isUsed ∧
    (verifyOTP 4 "EMAIL" (some "999999")
        (verifyOTP 4 "EMAIL" (some "999999") [c8Record]).2).1 = Except.ok () :=
  verifyOTP_frame_second_succeeds [c8Record] 4 "EMAIL" "999999" c8Record
    (by decide) (by decide) rfl (by decide) rfl

/-- C9: across every `OTPService` operation, the `isUsed` flag of a
stored document either stays what it was, or transitions `false → true`,
and the latter only on a successful `useOTP` whose located record has a
falsy `multiUse`; moreover `createOTP` initialises `isUsed` to `false`.
In particular no operation resets `isUsed` from `true` to `false`, and
`verifyOTP` (a `verifyOp` step forces the left disjunct) never changes
it.  The `Nodup` hypotheses reflect Mongo's unique `_id` index on the
pre- and post-states. -/
theorem isUsed_transition_invariant (op : OTPOp) (store : List OTPRecord)
    (hnd : (store.map OTPRecord.id).Nodup)
    (hnd' : ((applyOTPOp op store).map OTPRecord.id).Nodup) :
    (∀ r r', r ∈ store → r' ∈ applyOTPOp op store → r'.id = r.id →
      r'.isUsed = r.isUsed ∨
      (r.isUsed = false ∧ r'.isUsed = true ∧
        ∃ i ty v, op = OTPOp.useOp i ty v ∧
          (useOTP i ty v store).1 = Except.ok r' ∧ jsTruthyBool r.multiUse = false)) ∧
    (∀ u ty m c t s f n, ((createOTP u ty m c t s f n store).1).isUsed = false) := by
  constructor
  · intro r r' hr hr' hid
    cases op with
    | createOp u ty m c t s f n =>
      simp only [applyOTPOp, createOTP] at hr' hnd'
      rcases List.mem_append.mp hr' with h | h
      · exact Or.inl (by rw [eq_of_mem_of_id_eq hnd hr h hid])
      · exfalso
        simp only [List.mem_singleton] at h
        rw [List.map_append] at hnd'
        refine List.disjoint_of_nodup_append hnd'
          (List.mem_map.mpr ⟨r, hr, rfl⟩) ?_
        simp [← hid, h]
    | verifyOp i ty o =>
      simp only [applyOTPOp] at hr'
      cases hfind : findOne i ty store with
      | none =>
        simp [verifyOTP, hfind] at hr'
        exact Or.inl (by rw [eq_of_mem_of_id_eq hnd hr hr' hid])
      | some rf =>
        cases hu : rf.isUsed with
        | true =>
          simp [verifyOTP, hfind, hu] at hr'
          exact Or.inl (by rw [eq_of_mem_of_id_eq hnd hr hr' hid])
        | false =>
          cases o with
          | none =>
            simp [verifyOTP, hfind, hu] at hr'
            exact Or.inl (by rw [eq_of_mem_of_id_eq hnd hr hr' hid])
          | some cc =>
            by_cases hcond : cc ≠ "" ∧ verifyPasswordU cc rf.hashedOTP = true
            · simp [verifyOTP, hfind, hu, hcond] at hr'
              rcases mem_saveRecord hr' with h | h
              · have hrfmem := (findOne_mem hfind).1
                have hrfr : rf = r :=
                  eq_of_mem_of_id_eq hnd hr hrfmem (by rw [← hid, h])
                left
                rw [h, ← hrfr]
                exact hu.symm
              · exact Or.inl (by rw [eq_of_mem_of_id_eq hnd hr h hid])
            · simp [verifyOTP, hfind, hu, hcond] at hr'
              exact Or.inl (by rw [eq_of_mem_of_id_eq hnd hr hr' hid])
    | useOp i ty v =>
      simp only [applyOTPOp] at hr'
      cases hfind : findOne i ty store with
      | none =>
        simp [useOTP, hfind] at hr'
        exact Or.inl (by rw [eq_of_mem_of_id_eq hnd hr hr' hid])
      | some rf =>
        cases hu : rf.isUsed with
        | true =>
          simp [useOTP, hfind, hu] at hr'
          exact Or.inl (by rw [eq_of_mem_of_id_eq hnd hr hr' hid])
        | false =>
          cases v with
          | none =>
            simp [useOTP, hfind, hu] at hr'
            exact Or.inl (by rw [eq_of_mem_of_id_eq hnd hr hr' hid])
          | some t =>
            by_cases hcond : t ≠ "" ∧ verifyPasswordU t rf.verificationToken = true
            · cases hm : jsTruthyBool rf.multiUse with
              | true =>
                simp [useOTP, hfind, hu, hcond, hm] at hr'
                rcases mem_saveRecord hr' with h | h
                · have hrfmem := (findOne_mem hfind).1
                  have hrfr : rf = r :=
                    eq_of_mem_of_id_eq hnd hr hrfmem (by rw [← hid, h])
                  left
                  rw [h, hrfr]
                · exact Or.inl (by rw [eq_of_mem_of_id_eq hnd hr h hid])
              | false =>
                simp [useOTP, hfind, hu, hcond, hm] at hr'
                rcases mem_saveRecord hr' with h | h
                · have hrfmem := (findOne_mem hfind).1
                  have hrfr : rf = r :=
                    eq_of_mem_of_id_eq hnd hr hrfmem (by rw [← hid, h])
                  refine Or.inr ⟨by rw [← hrfr]; exact hu, by rw [h], i, ty, some t, rfl, ?_, ?_⟩
                  · simp [useOTP, hfind, hu, hcond, hm, h]
                  · rw [← hrfr]; exact hm
                · exact Or.inl (by rw [eq_of_mem_of_id_eq hnd hr h hid])
            · simp [useOTP, hfind, hu, hcond] at hr'
              exact Or.inl (by rw [eq_of_mem_of_id_eq hnd hr hr' hid])
  · intro u ty m c t s f n
    rfl

/-- Fixture for the C9 witness: an unused record with a properly hashed
verification token, so that a `useOTP` step genuinely flips `isUsed`. -/
def c9Record : OTPRecord :=
  { id := 5, userId := 1, otpType := "EMAIL",
    hashedOTP := none, otp := none,
    verificationToken := some (StrVal.hashed "777777" 6),
    isUsed := false, isVerified := none, multiUse := none, expiresAt := 600 }

/-- C9 witness: the invariant instantiated at a concrete successful
`useOTP` step that flips `isUsed` from `false` to `true`. -/
theorem isUsed_transition_invariant_witness :
    ({ c9Record with isUsed := true } : OTPRecord).isUsed = c9Record.isUsed ∨
    (c9Record.isUsed = false ∧
      ({ c9Record with isUsed := true } : OTPRecord).isUsed = true ∧
      ∃ i ty v, OTPOp.useOp 5 "EMAIL" (some "777777") = OTPOp.useOp i ty v ∧
        (useOTP i ty v [c9Record]).1 = Except.ok { c9Record with isUsed := true } ∧
        jsTruthyBool c9Record.multiUse = false) :=
  (isUsed_transition_invariant (OTPOp.useOp 5 "EMAIL" (some "777777")) [c9Record]
    (by decide) (by decide)).1 c9Record { c9Record with isUsed := true }
    (by decide) (by decide) rfl

/-- C3: every failure of the refresh flow — whichever internal step threw
— surfaces as the single normalized `UnauthorizedError('Invalid token')`
at the service boundary, and as the matching 401 at the controller
boundary: the result is either a success or exactly that error. -/
theorem refresh_failures_normalized (old : TokenStr) (st : AuthState)
    (users : List User) (now : Nat) :
    (refreshErrOf (refreshTokens old st users now) = none ∨
      refreshErrOf (refreshTokens old st users now)
        = some (AuthError.unauthorized "Invalid token")) ∧
    (refreshHttpErrOf (controllerRefresh old st users now) = none ∨
      refreshHttpErrOf (controllerRefresh old st users now)
        = some (HttpException.unauthorized "Invalid token")) := by
  unfold controllerRefresh refreshTokens
  cases refreshTokensInner old st users now with
  | ok x =>
    cases x
    simp [refreshErrOf, refreshHttpErrOf]
  | error e =>
    simp [refreshErrOf, refreshHttpErrOf, refreshHttp]

/-- Fixture: a user document. -/
def u0 : User :=
  { id := 1, email := "a@x.com", password := StrVal.hashed "Secret1" 0,
    isVerified := false, lastAuthChange := 0 }

/-- Fixture: a valid refresh-token payload for `u0`, issued at 100,
evaluated at time 200. -/
def p0 : Payload :=
  { sub := some 1, type := "refresh", lastAuthChange := 0, iat := 100, exp := 604900 }

/-- Fixture: a valid access-token payload for `u0` (wrong type for the
refresh endpoint). -/
def pA : Payload :=
  { sub := some 1, type := "access", lastAuthChange := 0, iat := 100, exp := 3700 }

/-- Fixture: empty blacklists. -/
def st0 : AuthState := { blacklistAccess := [], blacklistRefresh := [] }

/-- C4 counterexample: a well-signed, unexpired access token presented to
the refresh endpoint is answered with `UnauthorizedException('Invalid
token')` — not with a `ForbiddenException` as the claim states: the
internal `ForbiddenError('Invalid token type')` is swallowed by the
normalizing `catch`. -/
theorem wrong_type_refresh_not_forbidden :
    (controllerRefresh (TokenStr.signed pA) st0 [u0] 200).1
      = Except.error (HttpException.unauthorized "Invalid token") ∧
    failsForbidden (controllerRefresh (TokenStr.signed pA) st0 [u0] 200) = false :=
  ⟨rfl, rfl⟩

/-- C4 amended: a token that verifies but whose `type` claim is not
`refresh` makes the refresh operation fail with the normalized
`Unauthorized('Invalid token')` at both the service and the controller
boundary. -/
theorem wrong_type_refresh_unauthorized (p : Payload) (st : AuthState)
    (users : List User) (now : Nat)
    (hbl : TokenStr.signed p ∉ st.blacklistRefresh)
    (hjwt : jwtVerifyRefresh (TokenStr.signed p) now = some p)
    (hty : p.type ≠ "refresh") :
    (refreshTokens (TokenStr.signed p) st users now).1
      = Except.error (AuthError.unauthorized "Invalid token") ∧
    (controllerRefresh (TokenStr.signed p) st users now).1
      = Except.error (HttpException.unauthorized "Invalid token") := by
  unfold controllerRefresh refreshTokens refreshTokensInner
  simp [isTokenBlacklisted, hbl, hjwt, hty, refreshHttp]

/-- C4 amended witness: the access token `pA` concretely. -/
theorem wrong_type_refresh_unauthorized_witness :
    (refreshTokens (TokenStr.signed pA) st0 [u0] 200).1
      = Except.error (AuthError.unauthorized "Invalid token") ∧
    (controllerRefresh (TokenStr.signed pA) st0 [u0] 200).1
      = Except.error (HttpException.unauthorized "Invalid token") :=
  wrong_type_refresh_unauthorized pA st0 [u0] 200 (by decide) rfl (by decide)

/-- C5 amended: for a valid, un-blacklisted refresh token, the first
refresh succeeds and appends the consumed token to the refresh
blacklist; a second refresh of the same token then fails — internally at
the very first step, the blacklist check (`RefreshFail.blacklisted`, the
source's `ForbiddenError('Token blacklisted')`) — but what the caller
sees is the normalized `Unauthorized('Invalid token')`. -/
theorem refresh_twice_rotation (p : Payload) (st : AuthState)
    (users : List User) (now uid : Nat) (u : User)
    (hbl : TokenStr.signed p ∉ st.blacklistRefresh)
    (hjwt : jwtVerifyRefresh (TokenStr.signed p) now = some p)
    (hty : p.type = "refresh")
    (hsub : p.sub = some uid)
    (huser : getUser uid users = some u) :
    (refreshTokens (TokenStr.signed p) st users now).1 = Except.ok (getTokens u now) ∧
    ((refreshTokens (TokenStr.signed p) st users now).2).blacklistRefresh
      = st.blacklistRefresh ++ [TokenStr.signed p] ∧
    refreshTokensInner (TokenStr.signed p)
        (refreshTokens (TokenStr.signed p) st users now).2 users now
      = Except.error RefreshFail.blacklisted ∧
    (refreshTokens (TokenStr.signed p)
        (refreshTokens (TokenStr.signed p) st users now).2 users now).1
      = Except.error (AuthError.unauthorized "Invalid token") := by
  have hfirst : refreshTokensInner (TokenStr.signed p) st users now
      = Except.ok (getTokens u now,
          { st with blacklistRefresh := st.blacklistRefresh ++ [TokenStr.signed p] }) := by
    unfold refreshTokensInner blacklistToken
    simp [isTokenBlacklisted, hbl, hjwt, hty, hsub, huser]
  have hsecond : isTokenBlacklisted (TokenStr.signed p) "refresh"
      { st with blacklistRefresh := st.blacklistRefresh ++ [TokenStr.signed p] } = true := by
    simp [isTokenBlacklisted]
  have hpost : refreshTokens (TokenStr.signed p) st users now
      = (Except.ok (getTokens u now),
          { st with blacklistRefresh := st.blacklistRefresh ++ [TokenStr.signed p] }) := by
    simp [refreshTokens, hfirst]
  refine ⟨?_, ?_, ?_, ?_⟩
  · rw [hpost]
  · rw [hpost]
  · rw [hpost]
    simp [refreshTokensInner, hsecond]
  · rw [hpost]
    simp [refreshTokens, refreshTokensInner, hsecond]

/-- C5 counterexample (of the claim as stated): concretely, the second
refresh of the same valid token fails with the normalized
`Unauthorized('Invalid token')`, which is not a revocation-class error
(`ForbiddenError` / `IntegrityError` in the §7 taxonomy) — the blacklist
cause is discarded at the boundary. -/
theorem second_refresh_error_not_revocation_class :
    (refreshTokens (TokenStr.signed p0) st0 [u0] 200).1 = Except.ok (getTokens u0 200) ∧
    (refreshTokens (TokenStr.signed p0)
        (refreshTokens (TokenStr.signed p0) st0 [u0] 200).2 [u0] 200).1
      = Except.error (AuthError.unauthorized "Invalid token") ∧
    failsRevocationClass (refreshTokens (TokenStr.signed p0)
        (refreshTokens (TokenStr.signed p0) st0 [u0] 200).2 [u0] 200) = false :=
  ⟨rfl, rfl, rfl⟩

/-- C5 amended witness: the rotation theorem at the concrete fixture. -/
theorem refresh_twice_rotation_witness :
    (refreshTokens (TokenStr.signed p0) st0 [u0] 200).1 = Except.ok (getTokens u0 200) ∧
    ((refreshTokens (TokenStr.signed p0) st0 [u0] 200).2).blacklistRefresh
      = st0.blacklistRefresh ++ [TokenStr.signed p0] ∧
    refreshTokensInner (TokenStr.signed p0)
        (refreshTokens (TokenStr.signed p0) st0 [u0] 200).2 [u0] 200
      = Except.error RefreshFail.blacklisted ∧
    (refreshTokens (TokenStr.signed p0)
        (refreshTokens (TokenStr.signed p0) st0 [u0] 200).2 [u0] 200).1
      = Except.error (AuthError.unauthorized "Invalid token") :=
  refresh_twice_rotation p0 st0 [u0] 200 1 u0 (by decide) rfl rfl rfl rfl

/-- C7: when the guard-resolved OTP record's `userId` differs from the id
of the account resolved from the request's email, both `verifyAccount`
and `resetPassword` fail with the `UnauthorizedException` cross-user
message and leave the user store exactly as it was. -/
theorem cross_user_guard (r : OTPRecord) (email pwd : String) (salt now : Nat)
    (users : List User) (user : User)
    (hu : getUserByEmail email users = some user)
    (hne : r.userId ≠ user.id) :
    (verifyAccount (some r) email users).1
      = Except.error (HttpException.unauthorized crossUserMsg) ∧
    (verifyAccount (some r) email users).2 = users ∧
    (resetPassword (some r) email pwd salt now users).1
      = Except.error (HttpException.unauthorized crossUserMsg) ∧
    (resetPassword (some r) email pwd salt now users).2 = users := by
  unfold verifyAccount resetPassword
  simp [hu, hne]

/-- Fixture for the C7 witness: an OTP record owned by user 2 presented
against user 1's account. -/
def c7Record : OTPRecord :=
  { id := 6, userId := 2, otpType := "EMAIL",
    hashedOTP := none, otp := none, verificationToken := none,
    isUsed := false, isVerified := none, multiUse := none, expiresAt := 600 }

/-- C7 witness: the guard theorem at a concrete mismatched record. -/
theorem cross_user_guard_witness :
    (verifyAccount (some c7Record) "a@x.com" [u0]).1
      = Except.error (HttpException.unauthorized crossUserMsg) ∧
    (verifyAccount (some c7Record) "a@x.com" [u0]).2 = [u0] ∧
    (resetPassword (some c7Record) "a@x.com" "NewPass1" 9 300 [u0]).1
      = Except.error (HttpException.unauthorized crossUserMsg) ∧
    (resetPassword (some c7Record) "a@x.com" "NewPass1" 9 300 [u0]).2 = [u0] :=
  cross_user_guard c7Record "a@x.com" "NewPass1" 9 300 [u0] u0 (by decide) (by decide)

/-- C10: `logout` writes the access-token blacklist entry first; when
that insert conflicts (the access token is already blacklisted, Mongo's
duplicate-key error mapped to `IntegrityError` and surfaced as a 409
conflict), the operation aborts with the whole state unchanged — in
particular the supplied refresh token has not been blacklisted. -/
theorem logout_access_conflict_preserves_state (reqT bodyT : TokenStr)
    (st : AuthState) (h : reqT ∈ st.blacklistAccess) :
    (logout reqT bodyT st).1
      = Except.error (HttpException.conflict "Token already blacklisted") ∧
    (logout reqT bodyT st).2 = st := by
  unfold logout blacklistToken
  simp [h, logoutHttp]

/-- C10 witness: a concrete logout whose access token is already
blacklisted; the refresh blacklist stays empty. -/
theorem logout_access_conflict_preserves_state_witness :
    (logout (TokenStr.raw "a") (TokenStr.raw "b")
        { blacklistAccess := [TokenStr.raw "a"], blacklistRefresh := [] }).1
      = Except.error (HttpException.conflict "Token already blacklisted") ∧
    (logout (TokenStr.raw "a") (TokenStr.raw "b")
        { blacklistAccess := [TokenStr.raw "a"], blacklistRefresh := [] }).2
      = { blacklistAccess := [TokenStr.raw "a"], blacklistRefresh := [] } :=
  logout_access_conflict_preserves_state (TokenStr.raw "a") (TokenStr.raw "b")
    { blacklistAccess := [TokenStr.raw "a"], blacklistRefresh := [] } (by decide)

end Metamuse
